import Mathlib

/-!
# Verification of the task-management API core

Shallow embedding of the service's core (credential handling, token
issuance/validation, auth middleware, task CRUD with ownership checks)
and proofs of the specified properties.

Conventions of the embedding:
* timestamps are `Nat` seconds; `now` is passed explicitly where the code
  calls `datetime.now`;
* the database session is explicit state: user and task tables are Lean
  lists, queries are list lookups, commits return the new table;
* a raised `HTTPException(code, detail)` is `Except.error ⟨code, detail⟩`;
* JWTs are modelled abstractly: a token records whether it parses
  (`wellFormed`), whether its signature verifies (`sigValid`), its `exp`
  claim and its `sub` / `user_id` claims.  Tampering with a signature
  byte makes `sigValid` false.
-/

namespace TaskAPI

/-- Value form of `HTTPException(status_code, detail)`. -/
structure HTTPError where
  status_code : Nat
  detail : String
deriving DecidableEq, Repr

/-- Process-wide settings (database/config.py `Settings`). -/
structure Settings where
  SECRET_KEY : String := "your-secret-key-here"
  ALGORITHM : String := "HS256"
  ACCESS_TOKEN_EXPIRE_MINUTES : Nat := 30
deriving DecidableEq, Repr

/-- A row of the `users` table (models/user.py `User`). -/
structure StoredUser where
  id : Nat
  email : String
  first_name : Option String := none
  last_name : Option String := none
  hashed_password : String
  created_at : Nat
deriving DecidableEq, Repr

/-- The public user projection (schemas/user.py `UserResponse`). -/
structure UserResponse where
  id : Nat
  email : String
  first_name : Option String := none
  last_name : Option String := none
  created_at : Nat
deriving DecidableEq, Repr

/-! ## Token service (auth/auth.py) -/

/-- Abstract JWT.  `wellFormed` is whether the string parses as a JWT at
all, `sigValid` whether its signature verifies under the process key
(tampering a byte of the signature falsifies it), `exp` the expiry claim,
`sub` and `user_id` the identity claims (either may be absent). -/
structure Token where
  wellFormed : Bool
  sigValid : Bool
  exp : Option Nat
  sub : Option String
  user_id : Option Nat
deriving DecidableEq, Repr

/-- The claims `jwt.decode` hands back. -/
structure TokenData where
  sub : Option String
  user_id : Option Nat
deriving DecidableEq, Repr

/-- The `jose` library treats a token as expired when its `exp` claim is in the past. -/
def tokenExpired (token : Token) (now : Nat) : Bool :=
  match token.exp with
  | none => false
  | some e => e < now

/-- Embeds `decode_token` (auth/auth.py): `jwt.decode` inside `try/except JWTError`.
A malformed token, a bad signature or an expired token raises `JWTError`,
which is caught and turned into the value `None`; otherwise the payload is
returned.  Presence of `sub`/`user_id` is NOT checked here. -/
def decode_token (token : Token) (now : Nat) : Option TokenData :=
  if token.wellFormed && token.sigValid && !(tokenExpired token now) then
    some ⟨token.sub, token.user_id⟩
  else
    none

/-- Embeds `create_access_token` (auth/auth.py).  `expires_delta` is in seconds;
`if d == 0` models Python's falsiness of `timedelta(0)` in
`expires_delta or timedelta(minutes=settings.ACCESS_TOKEN_EXPIRE_MINUTES)`. -/
def create_access_token (data : TokenData) (now : Nat) (expires_delta : Option Nat)
    (settings : Settings) : Token :=
  let expire := now + (match expires_delta with
    | some d => if d == 0 then settings.ACCESS_TOKEN_EXPIRE_MINUTES * 60 else d
    | none => settings.ACCESS_TOKEN_EXPIRE_MINUTES * 60)
  { wellFormed := true, sigValid := true, exp := some expire,
    sub := data.sub, user_id := data.user_id }

/-! ## Auth middleware (auth/dependencies.py) -/

/-- The single `credentials_exception` every validation failure raises. -/
def credentials_exception : HTTPError :=
  ⟨401, "Could not validate credentials"⟩

/-- Embeds `get_current_user` (auth/dependencies.py): decode the token, require
the `sub` claim, require the `user_id` claim, look the `user_id` up in the
users table, and build the `UserResponse` projection; every failure raises
the same `credentials_exception`. -/
def get_current_user (token : Token) (db : List StoredUser) (now : Nat) :
    Except HTTPError UserResponse :=
  match decode_token token now with
  | none => .error credentials_exception
  | some payload =>
    match payload.sub with
    | none => .error credentials_exception
    | some _email =>
      match payload.user_id with
      | none => .error credentials_exception
      | some user_id =>
        match db.find? (fun u => u.id == user_id) with
        | none => .error credentials_exception
        | some user =>
          .ok { id := user.id, email := user.email, first_name := user.first_name,
                last_name := user.last_name, created_at := user.created_at }

/-- Embeds `read_users_me` (routers/auth.py, `GET /auth/me`): decodes the token
itself, requires only the `sub` claim, and looks the user up BY EMAIL
(`User.email == payload["sub"]`), not by `user_id`; an absent user raises
401 "User not found". -/
def read_users_me (token : Token) (db : List StoredUser) (now : Nat) :
    Except HTTPError UserResponse :=
  match decode_token token now with
  | none => .error credentials_exception
  | some payload =>
    match payload.sub with
    | none => .error credentials_exception
    | some email =>
      match db.find? (fun u => u.email == email) with
      | none => .error ⟨401, "User not found"⟩
      | some user =>
        .ok { id := user.id, email := user.email, first_name := user.first_name,
              last_name := user.last_name, created_at := user.created_at }

/-- The token-validation pipeline of `get_current_user` before the store
lookup, as a value: decode, then require `sub` and `user_id`.  This is the
spec's `validate(token_string) -> {user_id, email} | Invalid`. -/
def validate_token (token : Token) (now : Nat) : Option (String × Nat) :=
  match decode_token token now with
  | none => none
  | some payload =>
    match payload.sub with
    | none => none
    | some email =>
      match payload.user_id with
      | none => none
      | some user_id => some (email, user_id)

/-! ## Login (routers/auth.py) -/

/-- Embeds `authenticate_user` (routers/auth.py): find the user by email, verify
the password against the stored hash.  `verify` is the Password Hasher
collaborator (`pwdlib` Argon2 `verify`). -/
def authenticate_user (verify : String → String → Bool) (email password : String)
    (db : List StoredUser) : Option StoredUser :=
  match db.find? (fun u => u.email == email) with
  | none => none
  | some user => if verify password user.hashed_password then some user else none

/-- Embeds `login_for_access_token` (routers/auth.py, `POST /auth/token`):
authenticate, then mint a token with a hardcoded
`access_token_expires = timedelta(minutes=30)`. -/
def login_for_access_token (verify : String → String → Bool)
    (username password : String) (db : List StoredUser) (now : Nat)
    (settings : Settings) : Except HTTPError (Token × String) :=
  match authenticate_user verify username password db with
  | none => .error ⟨401, "Incorrect email or password"⟩
  | some user =>
    let access_token :=
      create_access_token ⟨some user.email, some user.id⟩ now (some (30 * 60)) settings
    .ok (access_token, "bearer")

/-! ## Signup (routers/user.py) -/

/-- Exceptions the store can raise during `db.commit()`:
`IntegrityError` (uniqueness-constraint violation) or any other error. -/
inductive DBExn where
  | integrityError
  | otherError
deriving DecidableEq, Repr

/-- Models `isinstance(e, Exception)`: `IntegrityError` subclasses `Exception`,
so every store exception matches an `except Exception:` clause. -/
def isInstanceOfException : DBExn → Bool := fun _ => true

/-- Models `isinstance(e, IntegrityError)`. -/
def isInstanceOfIntegrityError : DBExn → Bool
  | .integrityError => true
  | .otherError => false

/-- The exception-handler dispatch of `signup_user` (routers/user.py):
Python tries `except` clauses in source order, and the code writes
`except Exception:` (→ 500) BEFORE `except IntegrityError:` (→ 409), so
the 409 clause is unreachable — every store exception, `IntegrityError`
included, is answered with 500. -/
def signup_exn_dispatch (e : DBExn) : HTTPError :=
  if isInstanceOfException e then
    ⟨500, "Error occurred during user creation"⟩
  else if isInstanceOfIntegrityError e then
    ⟨409, "Email already registered"⟩
  else
    ⟨500, "unhandled"⟩

/-- The validated signup payload (schemas/user.py `UserCreate`, after the
boundary password/email validation). -/
structure UserCreate where
  email : String
  password : String
  first_name : Option String := none
  last_name : Option String := none
deriving DecidableEq, Repr

/-- Whether the users table already holds a row with this email. -/
def emailExists (db : List StoredUser) (email : String) : Bool :=
  (db.find? (fun u => u.email == email)).isSome

/-- Fresh autoincrement id for the users table. -/
def nextUserId (db : List StoredUser) : Nat :=
  (db.map (fun u => u.id)).foldr max 0 + 1

/-- Commit (`db.commit()`) of the insert: the store's uniqueness constraint rejects
the row with `IntegrityError` when a row with the same email is already
committed; otherwise the row is appended. -/
def commitInsert (db : List StoredUser) (u : StoredUser) :
    Except DBExn (List StoredUser) :=
  if emailExists db u.email then .error .integrityError
  else .ok (db ++ [u])

/-- Embeds `signup_user` (routers/user.py, `POST /users/signup`).  To expose the
signup race, the pre-check query runs against `dbAtQuery` while the commit
runs against `dbAtCommit` (a concurrent signup may have inserted between
the two; sequential execution is the case `dbAtQuery = dbAtCommit`).
Control flow: pre-check (→ 409), hash the password, insert inside
`try: ... except Exception: rollback; 500  except IntegrityError:
rollback; 409` — the dispatch of which is `signup_exn_dispatch`.  On any
exception the transaction is rolled back, so the returned table is
`dbAtCommit` unchanged. -/
def signup_user (user_create : UserCreate) (hash : String → String)
    (dbAtQuery dbAtCommit : List StoredUser) (now : Nat) :
    Except HTTPError UserResponse × List StoredUser :=
  if emailExists dbAtQuery user_create.email then
    (.error ⟨409, "Email already registered"⟩, dbAtCommit)
  else
    let db_user : StoredUser :=
      { id := nextUserId dbAtCommit, email := user_create.email,
        first_name := user_create.first_name, last_name := user_create.last_name,
        hashed_password := hash user_create.password, created_at := now }
    match commitInsert dbAtCommit db_user with
    | .error e => (.error (signup_exn_dispatch e), dbAtCommit)
    | .ok db' =>
      (.ok { id := db_user.id, email := db_user.email,
             first_name := db_user.first_name, last_name := db_user.last_name,
             created_at := db_user.created_at }, db')

/-! ## Task model and validation (models/task.py) -/

/-- The `TaskStatus` string enum. -/
inductive TaskStatus where
  | pending
  | in_progress
  | completed
deriving DecidableEq, Repr

/-- The `TaskPriority` string enum. -/
inductive TaskPriority where
  | low
  | medium
  | high
deriving DecidableEq, Repr

/-- A row of the task table (models/task.py `Task`).  `TaskResponse`
carries exactly these fields, so responses are `Task` values here. -/
structure Task where
  id : Nat
  title : String
  description : Option String := none
  status : TaskStatus := .pending
  priority : TaskPriority := .medium
  due_date : Option Nat := none
  user_id : Nat
  created_at : Nat
  updated_at : Nat
deriving DecidableEq, Repr

/-- Deserialization of a `status` string at the boundary: any string
outside the closed enum set is rejected. -/
def parse_status (s : String) : Option TaskStatus :=
  if s == "pending" then some .pending
  else if s == "in_progress" then some .in_progress
  else if s == "completed" then some .completed
  else none

/-- Deserialization of a `priority` string at the boundary. -/
def parse_priority (s : String) : Option TaskPriority :=
  if s == "low" then some .low
  else if s == "medium" then some .medium
  else if s == "high" then some .high
  else none

/-- The raw `POST /tasks/` body before Pydantic validation (strings for
the enum fields, `none` = field omitted; `due_date` is taken already
parsed, its date syntax being boundary plumbing). -/
structure RawTaskCreate where
  title : String
  description : Option String := none
  status : Option String := none
  priority : Option String := none
  due_date : Option Nat := none
deriving DecidableEq, Repr

/-- The validated create payload (models/task.py `TaskCreate` =
`TaskBase`): note it has NO owner field; defaults `pending` / `medium`
already applied. -/
structure TaskCreate where
  title : String
  description : Option String := none
  status : TaskStatus := .pending
  priority : TaskPriority := .medium
  due_date : Option Nat := none
deriving DecidableEq, Repr

/-- Pydantic validation of `TaskCreate` (models/task.py `TaskBase`):
`title` 1–255 chars, `description` at most 1000 chars, `status` /
`priority` in their enum sets (defaulted when omitted).  `none` is a 422
`ValidationError`. -/
def validateTaskCreate (r : RawTaskCreate) : Option TaskCreate :=
  if r.title.length < 1 || 255 < r.title.length then none
  else if (match r.description with | none => false | some d => 1000 < d.length) then none
  else
    match (match r.status with | none => some TaskStatus.pending | some s => parse_status s),
          (match r.priority with | none => some TaskPriority.medium | some p => parse_priority p) with
    | some st, some pr =>
      some { title := r.title, description := r.description, status := st,
             priority := pr, due_date := r.due_date }
    | _, _ => none

/-- The raw `PUT`/`PATCH` body: an outer `none` means the field was not in
the body (`exclude_unset`); `description`/`due_date` carry a further
`Option` because JSON `null` is a storable value for them. -/
structure RawTaskUpdate where
  title : Option String := none
  description : Option (Option String) := none
  status : Option String := none
  priority : Option String := none
  due_date : Option (Option Nat) := none
deriving DecidableEq, Repr

/-- The validated sparse update (models/task.py `TaskUpdate` after
`model_dump(exclude_unset=True)`): only present fields will be applied. -/
structure TaskUpdate where
  title : Option String := none
  description : Option (Option String) := none
  status : Option TaskStatus := none
  priority : Option TaskPriority := none
  due_date : Option (Option Nat) := none
deriving DecidableEq, Repr

/-- Pydantic validation of `TaskUpdate`: each supplied field is checked
against the same bounds as at creation. -/
def validateTaskUpdate (r : RawTaskUpdate) : Option TaskUpdate :=
  if (match r.title with | none => false | some t => t.length < 1 || 255 < t.length) then none
  else if (match r.description with
           | none => false
           | some none => false
           | some (some d) => 1000 < d.length) then none
  else
    match (match r.status with
           | none => some (none : Option TaskStatus)
           | some s => (parse_status s).map some),
          (match r.priority with
           | none => some (none : Option TaskPriority)
           | some p => (parse_priority p).map some) with
    | some st, some pr =>
      some { title := r.title, description := r.description, status := st,
             priority := pr, due_date := r.due_date }
    | _, _ => none

/-! ## Task handlers (routers/task.py) -/

/-- The 404 each handler raises when `session.get(Task, task_id)` is `None`. -/
def taskNotFound (task_id : Nat) : HTTPError :=
  ⟨404, "Task with id " ++ toString task_id ++ " not found"⟩

/-- Fresh autoincrement id for the task table. -/
def nextTaskId (store : List Task) : Nat :=
  (store.map (fun t => t.id)).foldr max 0 + 1

/-- Embeds `session.get(Task, task_id)`: primary-key lookup. -/
def session_get (store : List Task) (task_id : Nat) : Option Task :=
  store.find? (fun t => t.id == task_id)

/-- Embeds `create_task` (`POST /tasks/`): builds the row with
`user_id = current_user.id`, `created_at = updated_at = utc_now`, and the
payload's (already-defaulted) fields, then commits.  The Python
`task.status if task.status else TaskStatus.PENDING` is the identity,
since enum members are non-empty strings and hence truthy. -/
def create_task (task : TaskCreate) (current_user : UserResponse)
    (store : List Task) (now : Nat) : Task × List Task :=
  let db_task : Task :=
    { id := nextTaskId store, title := task.title, description := task.description,
      status := task.status, priority := task.priority, due_date := task.due_date,
      user_id := current_user.id, created_at := now, updated_at := now }
  (db_task, store ++ [db_task])

/-- Embeds `get_tasks` (`GET /tasks/`):
`select(Task).where(Task.user_id == current_user.id).offset(skip).limit(limit)`
over the store in native order. -/
def get_tasks (current_user : UserResponse) (skip limit : Nat)
    (store : List Task) : List Task :=
  (((store.filter (fun t => t.user_id == current_user.id)).drop skip).take limit)

/-- Embeds `get_task` (`GET /tasks/\x7btask_id\x7d`): 404 when absent, then 403 when
`task.user_id != current_user.id`, else the task. -/
def get_task (task_id : Nat) (current_user : UserResponse)
    (store : List Task) : Except HTTPError Task :=
  match session_get store task_id with
  | none => .error (taskNotFound task_id)
  | some task =>
    if task.user_id != current_user.id then
      .error ⟨403, "Not authorized to access this task"⟩
    else
      .ok task

/-- Applies `setattr(db_task, field, value)` for each field present in
`task_update.model_dump(exclude_unset=True)`. -/
def applyUpdate (t : Task) (u : TaskUpdate) : Task :=
  { t with
    title := match u.title with | none => t.title | some v => v,
    description := match u.description with | none => t.description | some v => v,
    status := match u.status with | none => t.status | some v => v,
    priority := match u.priority with | none => t.priority | some v => v,
    due_date := match u.due_date with | none => t.due_date | some v => v }

/-- Commit of a mutated row: the row with this id is replaced in place,
store order preserved. -/
def replaceTask (store : List Task) (task_id : Nat) (t : Task) : List Task :=
  store.map (fun x => if x.id == task_id then t else x)

/-- Embeds `update_task` (`PUT /tasks/\x7btask_id\x7d`): 404 when absent, 403 when not
the owner, else apply the provided fields, set
`updated_at = datetime.now(timezone.utc)`, commit. -/
def update_task (task_id : Nat) (task_update : TaskUpdate)
    (current_user : UserResponse) (store : List Task) (now : Nat) :
    Except HTTPError (Task × List Task) :=
  match session_get store task_id with
  | none => .error (taskNotFound task_id)
  | some db_task =>
    if db_task.user_id != current_user.id then
      .error ⟨403, "Not authorized to update this task"⟩
    else
      let updated := { applyUpdate db_task task_update with updated_at := now }
      .ok (updated, replaceTask store task_id updated)

/-- The `PATCH /tasks/{task_id}` handler (source name starts with a word
Lean reserves): its body is textually identical to `update_task`'s. -/
def patch_update_task (task_id : Nat) (task_update : TaskUpdate)
    (current_user : UserResponse) (store : List Task) (now : Nat) :
    Except HTTPError (Task × List Task) :=
  match session_get store task_id with
  | none => .error (taskNotFound task_id)
  | some db_task =>
    if db_task.user_id != current_user.id then
      .error ⟨403, "Not authorized to update this task"⟩
    else
      let updated := { applyUpdate db_task task_update with updated_at := now }
      .ok (updated, replaceTask store task_id updated)

/-- Embeds `delete_task` (`DELETE /tasks/\x7btask_id\x7d`): 404 when absent, 403 when
not the owner, else `session.delete(task); session.commit()` removes the
row with that primary key. -/
def delete_task (task_id : Nat) (current_user : UserResponse)
    (store : List Task) : Except HTTPError (List Task) :=
  match session_get store task_id with
  | none => .error (taskNotFound task_id)
  | some task =>
    if task.user_id != current_user.id then
      .error ⟨403, "Not authorized to delete this task"⟩
    else
      .ok (store.filter (fun x => x.id != task_id))

/-! ## Properties -/

/-- The disjunction of token defects §4.2 lists: malformed, bad signature,
expired, or missing `sub` / `user_id` claim. -/
def tokenRejected (token : Token) (now : Nat) : Prop :=
  token.wellFormed = false ∨ token.sigValid = false ∨
    (∃ e, token.exp = some e ∧ e < now) ∨ token.sub = none ∨ token.user_id = none

/-- C10: Every token issued by the login endpoint expires exactly 30 minutes
(1800 seconds) after issuance, because the handler passes a hardcoded
30-minute `expires_delta` to `create_access_token`; consequently the login
result is the same under every `Settings` value, so the configured
`ACCESS_TOKEN_EXPIRE_MINUTES` fallback never affects tokens minted at
login. -/
theorem login_token_expires_in_30_minutes
    (verify : String → String → Bool) (username password : String)
    (db : List StoredUser) (now : Nat) (settings : Settings)
    (tok : Token) (tt : String)
    (h : login_for_access_token verify username password db now settings = .ok (tok, tt)) :
    tok.exp = some (now + 30 * 60) ∧
    ∀ settings2 : Settings,
      login_for_access_token verify username password db now settings2 = .ok (tok, tt) := by
  unfold login_for_access_token at h ⊢
  cases hauth : authenticate_user verify username password db with
  | none => rw [hauth] at h; exact Except.noConfusion h
  | some user =>
    rw [hauth] at h
    simp only [Except.ok.injEq, Prod.mk.injEq] at h
    obtain ⟨htok, htt⟩ := h
    subst htok htt
    exact ⟨rfl, fun settings2 => rfl⟩

/-- Closed instance of `login_token_expires_in_30_minutes`: a concrete
successful login under a `Settings` whose `ACCESS_TOKEN_EXPIRE_MINUTES`
is 45 still yields a token expiring `30 * 60` seconds after `now`. -/
theorem login_token_expires_in_30_minutes_witness :
    (Token.mk true true (some 1800) (some "a@x") (some 1)).exp = some (0 + 30 * 60) ∧
    ∀ settings2 : Settings,
      login_for_access_token (fun p h => p == h) "a@x" "Pw"
          [⟨1, "a@x", none, none, "Pw", 0⟩] 0 settings2 =
        .ok (Token.mk true true (some 1800) (some "a@x") (some 1), "bearer") :=
  login_token_expires_in_30_minutes (fun p h => p == h) "a@x" "Pw"
    [⟨1, "a@x", none, none, "Pw", 0⟩] 0 ⟨"k", "HS256", 45⟩
    (Token.mk true true (some 1800) (some "a@x") (some 1)) "bearer" rfl

/-- C5: every defective token — malformed, bad signature, expired, or
missing `sub`/`user_id` claim — makes `validate_token` return the value
`none` (never an exception), and `get_current_user` answers every one of
these cases with the one identical `credentials_exception` (401), with no
distinction of sub-reason. -/
theorem invalid_token_uniform_unauthorized
    (token : Token) (db : List StoredUser) (now : Nat)
    (h : tokenRejected token now) :
    validate_token token now = none ∧
    get_current_user token db now = .error credentials_exception := by
  have hnotok : ∀ hd : decode_token token now = none,
      validate_token token now = none ∧
      get_current_user token db now = .error credentials_exception := by
    intro hd
    constructor
    · unfold validate_token; rw [hd]
    · unfold get_current_user; rw [hd]
  rcases h with hwf | hsig | ⟨e, he, helt⟩ | hsub | huid
  · exact hnotok (by simp [decode_token, hwf])
  · exact hnotok (by simp [decode_token, hsig])
  · have hexp : tokenExpired token now = true := by
      simp [tokenExpired, he]; exact helt
    exact hnotok (by simp [decode_token, hexp])
  · by_cases hc : (token.wellFormed && token.sigValid && !(tokenExpired token now)) = true
    · constructor
      · simp [validate_token, decode_token, hc, hsub]
      · simp [get_current_user, decode_token, hc, hsub]
    · exact hnotok (by simp [decode_token]; simpa using hc)
  · by_cases hc : (token.wellFormed && token.sigValid && !(tokenExpired token now)) = true
    · constructor
      · simp [validate_token, decode_token, hc, huid]
        cases hs : token.sub <;> simp
      · simp [get_current_user, decode_token, hc, huid]
        cases hs : token.sub <;> simp
    · exact hnotok (by simp [decode_token]; simpa using hc)

/-- Closed instance of `invalid_token_uniform_unauthorized`: a token minted
with ttl 60 seconds and validated at `now = 61` (one second after its
ttl elapsed) is rejected with the uniform 401, and so is an otherwise
valid token whose signature byte was tampered. -/
theorem invalid_token_uniform_unauthorized_witness :
    (validate_token (create_access_token ⟨some "a@x", some 1⟩ 0 (some 60) ⟨"k", "HS256", 30⟩) 61 = none ∧
      get_current_user (create_access_token ⟨some "a@x", some 1⟩ 0 (some 60) ⟨"k", "HS256", 30⟩)
        [⟨1, "a@x", none, none, "h0", 0⟩] 61 = .error credentials_exception) ∧
    (validate_token ⟨true, false, some 1000, some "a@x", some 1⟩ 5 = none ∧
      get_current_user ⟨true, false, some 1000, some "a@x", some 1⟩
        [⟨1, "a@x", none, none, "h0", 0⟩] 5 = .error credentials_exception) :=
  ⟨invalid_token_uniform_unauthorized _ _ 61
      (Or.inr (Or.inr (Or.inl ⟨60, rfl, by decide⟩))),
    invalid_token_uniform_unauthorized _ _ 5 (Or.inr (Or.inl rfl))⟩

/-- C1 (code bug): when the race makes the pre-check miss the duplicate
(`dbAtQuery` lacks the email but `dbAtCommit` holds it), the store's
uniqueness constraint raises `IntegrityError` — and the handler answers
500, not 409, because the `except Exception` clause shadows the later
`except IntegrityError` clause; the rollback does leave the table
unchanged (no partial record), and the sequential pre-check path still
answers 409. -/
theorem signup_integrity_error_maps_to_500 :
    (signup_user ⟨"a@x", "Pw123456", none, none⟩ (fun p => p ++ "#h") []
        [⟨1, "a@x", none, none, "h0", 0⟩] 5).1 =
      .error ⟨500, "Error occurred during user creation"⟩ ∧
    (signup_user ⟨"a@x", "Pw123456", none, none⟩ (fun p => p ++ "#h") []
        [⟨1, "a@x", none, none, "h0", 0⟩] 5).2 =
      [⟨1, "a@x", none, none, "h0", 0⟩] ∧
    signup_exn_dispatch .integrityError ≠ ⟨409, "Email already registered"⟩ ∧
    (signup_user ⟨"a@x", "Pw123456", none, none⟩ (fun p => p ++ "#h")
        [⟨1, "a@x", none, none, "h0", 0⟩] [⟨1, "a@x", none, none, "h0", 0⟩] 5).1 =
      .error ⟨409, "Email already registered"⟩ :=
  ⟨rfl, rfl, by decide, rfl⟩

/-- C2 (counterexample): with the store holding exactly user
`{id := 1, email := "a@x"}` and a valid token carrying
`user_id = 1` but `sub = "b@y"`, the `GET /auth/me` handler rejects with
401 "User not found" even though the user_id lookup succeeds (as
`get_current_user` shows) — so `/auth/me` does NOT look up by `user_id`. -/
theorem authme_email_lookup_counterexample :
    read_users_me ⟨true, true, some 1000, some "b@y", some 1⟩
        [⟨1, "a@x", none, none, "h0", 0⟩] 0 = .error ⟨401, "User not found"⟩ ∧
    (([⟨1, "a@x", none, none, "h0", 0⟩] : List StoredUser).find?
        (fun u => u.id == 1)).isSome = true ∧
    get_current_user ⟨true, true, some 1000, some "b@y", some 1⟩
        [⟨1, "a@x", none, none, "h0", 0⟩] 0 = .ok ⟨1, "a@x", none, none, 0⟩ :=
  ⟨rfl, rfl, rfl⟩

/-- C2 (amended): for a token that validates with claims `(email, uid)`,
`get_current_user` looks `uid` up in the store, rejects with the uniform
401 when no user with that id exists (covering a valid token for a
since-deleted user), and otherwise yields
`{id, email, first_name, last_name, created_at}` of the user found by id;
the `GET /auth/me` handler instead looks the user up by the `sub` email,
rejecting with 401 when no user with that email exists and otherwise
yielding the projection of the user found by email. -/
theorem auth_identity_resolution
    (token : Token) (db : List StoredUser) (now : Nat)
    (email : String) (uid : Nat)
    (hval : validate_token token now = some (email, uid)) :
    (db.find? (fun u => u.id == uid) = none →
      get_current_user token db now = .error credentials_exception) ∧
    (∀ u, db.find? (fun x => x.id == uid) = some u →
      get_current_user token db now =
        .ok ⟨u.id, u.email, u.first_name, u.last_name, u.created_at⟩) ∧
    (db.find? (fun u => u.email == email) = none →
      read_users_me token db now = .error ⟨401, "User not found"⟩) ∧
    (∀ u, db.find? (fun x => x.email == email) = some u →
      read_users_me token db now =
        .ok ⟨u.id, u.email, u.first_name, u.last_name, u.created_at⟩) := by
  unfold validate_token at hval
  cases hd : decode_token token now with
  | none => rw [hd] at hval; exact Option.noConfusion hval
  | some payload =>
    rw [hd] at hval
    obtain ⟨psub, puid⟩ := payload
    cases psub with
    | none => simp at hval
    | some e =>
      cases puid with
      | none => simp at hval
      | some i =>
        simp only [Option.some.injEq, Prod.mk.injEq] at hval
        obtain ⟨he, hi⟩ := hval
        subst he hi
        refine ⟨?_, ?_, ?_, ?_⟩
        · intro hfind
          simp [get_current_user, hd, hfind]
        · intro u hfind
          simp [get_current_user, hd, hfind]
        · intro hfind
          simp [read_users_me, hd, hfind]
        · intro u hfind
          simp [read_users_me, hd, hfind]

/-- Closed instance of `auth_identity_resolution`: a concrete valid token
for user 1 yields that user's projection from `get_current_user` and from
`/auth/me` (whose email lookup agrees here because `sub` matches the
stored email). -/
theorem auth_identity_resolution_witness :
    get_current_user ⟨true, true, some 1000, some "a@x", some 1⟩
        [⟨1, "a@x", none, none, "h0", 0⟩] 0 = .ok ⟨1, "a@x", none, none, 0⟩ ∧
    read_users_me ⟨true, true, some 1000, some "a@x", some 1⟩
        [⟨1, "a@x", none, none, "h0", 0⟩] 0 = .ok ⟨1, "a@x", none, none, 0⟩ :=
  ⟨(auth_identity_resolution ⟨true, true, some 1000, some "a@x", some 1⟩
      [⟨1, "a@x", none, none, "h0", 0⟩] 0 "a@x" 1 rfl).2.1
      ⟨1, "a@x", none, none, "h0", 0⟩ rfl,
    (auth_identity_resolution ⟨true, true, some 1000, some "a@x", some 1⟩
      [⟨1, "a@x", none, none, "h0", 0⟩] 0 "a@x" 1 rfl).2.2.2
      ⟨1, "a@x", none, none, "h0", 0⟩ rfl⟩

/-- C3: for get, update (PUT and PATCH) and delete alike, existence is
checked before ownership: an absent `task_id` yields the 404 for every
caller; a present task owned by someone else yields the 403 (never the
404); and the owned-and-existing case is the only one that produces a
success. -/
theorem existence_checked_before_ownership
    (task_id : Nat) (u : TaskUpdate) (cu : UserResponse) (store : List Task) (now : Nat) :
    (session_get store task_id = none →
      get_task task_id cu store = .error (taskNotFound task_id) ∧
      update_task task_id u cu store now = .error (taskNotFound task_id) ∧
      patch_update_task task_id u cu store now = .error (taskNotFound task_id) ∧
      delete_task task_id cu store = .error (taskNotFound task_id)) ∧
    (∀ t, session_get store task_id = some t → t.user_id ≠ cu.id →
      get_task task_id cu store = .error ⟨403, "Not authorized to access this task"⟩ ∧
      update_task task_id u cu store now = .error ⟨403, "Not authorized to update this task"⟩ ∧
      patch_update_task task_id u cu store now = .error ⟨403, "Not authorized to update this task"⟩ ∧
      delete_task task_id cu store = .error ⟨403, "Not authorized to delete this task"⟩) ∧
    (∀ t, session_get store task_id = some t → t.user_id = cu.id →
      (∃ a, get_task task_id cu store = .ok a) ∧
      (∃ a, update_task task_id u cu store now = .ok a) ∧
      (∃ a, patch_update_task task_id u cu store now = .ok a) ∧
      (∃ a, delete_task task_id cu store = .ok a)) := by
  refine ⟨?_, ?_, ?_⟩
  · intro hf
    refine ⟨?_, ?_, ?_, ?_⟩ <;>
      simp [get_task, update_task, patch_update_task, delete_task, hf]
  · intro t hf hne
    refine ⟨?_, ?_, ?_, ?_⟩ <;>
      simp [get_task, update_task, patch_update_task, delete_task, hf, hne]
  · intro t hf ho
    refine ⟨?_, ?_, ?_, ?_⟩ <;>
      simp [get_task, update_task, patch_update_task, delete_task, hf, ho]

/-- Closed instance of `existence_checked_before_ownership`: with the store
holding exactly task 1 owned by user 7, task 2 is 404 for its would-be
owner, task 1 is 403 for user 8, and task 1 succeeds for user 7. -/
theorem existence_checked_before_ownership_witness :
    get_task 2 ⟨7, "a@x", none, none, 0⟩
        [⟨1, "T", none, .pending, .medium, none, 7, 0, 0⟩] = .error (taskNotFound 2) ∧
    get_task 1 ⟨8, "b@y", none, none, 0⟩
        [⟨1, "T", none, .pending, .medium, none, 7, 0, 0⟩] =
      .error ⟨403, "Not authorized to access this task"⟩ ∧
    (∃ a, delete_task 1 ⟨7, "a@x", none, none, 0⟩
        [⟨1, "T", none, .pending, .medium, none, 7, 0, 0⟩] = .ok a) :=
  ⟨((existence_checked_before_ownership 2 ⟨none, none, none, none, none⟩
      ⟨7, "a@x", none, none, 0⟩
      [⟨1, "T", none, .pending, .medium, none, 7, 0, 0⟩] 3).1 rfl).1,
    ((existence_checked_before_ownership 1 ⟨none, none, none, none, none⟩
      ⟨8, "b@y", none, none, 0⟩
      [⟨1, "T", none, .pending, .medium, none, 7, 0, 0⟩] 3).2.1
      ⟨1, "T", none, .pending, .medium, none, 7, 0, 0⟩ rfl (by decide)).1,
    ((existence_checked_before_ownership 1 ⟨none, none, none, none, none⟩
      ⟨7, "a@x", none, none, 0⟩
      [⟨1, "T", none, .pending, .medium, none, 7, 0, 0⟩] 3).2.2
      ⟨1, "T", none, .pending, .medium, none, 7, 0, 0⟩ rfl rfl).2.2.2⟩

/-- C4: a successful `PUT` or `PATCH` changes only the provided fields —
every unsupplied one of title, description, status, priority, due_date
keeps its prior value —, never mutates `created_at` or `user_id`, and sets
`updated_at` to the current time, which is strictly greater than the
value at creation whenever the update happens strictly after creation. -/
theorem sparse_update_frame
    (task_id : Nat) (u : TaskUpdate) (cu : UserResponse) (store : List Task)
    (now : Nat) (t t' : Task) (store' : List Task)
    (hf : session_get store task_id = some t)
    (h : update_task task_id u cu store now = .ok (t', store') ∨
         patch_update_task task_id u cu store now = .ok (t', store')) :
    (u.title = none → t'.title = t.title) ∧
    (u.description = none → t'.description = t.description) ∧
    (u.status = none → t'.status = t.status) ∧
    (u.priority = none → t'.priority = t.priority) ∧
    (u.due_date = none → t'.due_date = t.due_date) ∧
    t'.created_at = t.created_at ∧
    t'.user_id = t.user_id ∧
    t'.updated_at = now ∧
    (t.created_at < now → t'.created_at < t'.updated_at) := by
  have ht' : t' = { applyUpdate t u with updated_at := now } := by
    rcases h with h | h
    · unfold update_task at h
      rw [hf] at h
      by_cases ho : t.user_id = cu.id
      · simp [ho] at h
        exact h.1.symm
      · simp [ho] at h
    · unfold patch_update_task at h
      rw [hf] at h
      by_cases ho : t.user_id = cu.id
      · simp [ho] at h
        exact h.1.symm
      · simp [ho] at h
  subst ht'
  refine ⟨?_, ?_, ?_, ?_, ?_, rfl, rfl, rfl, fun hlt => hlt⟩ <;>
    (intro h0; simp [applyUpdate, h0])

/-- Closed instance of `sparse_update_frame`: PATCHing only the title of a
task leaves description/status/priority as they were, keeps `created_at`,
and sets `updated_at` to the (later) update time. -/
theorem sparse_update_frame_witness :
    update_task 1 ⟨some "New", none, none, none, none⟩ ⟨7, "a@x", none, none, 0⟩
        [⟨1, "T", some "D", .pending, .medium, none, 7, 0, 0⟩] 5 =
      .ok (⟨1, "New", some "D", .pending, .medium, none, 7, 0, 5⟩,
           [⟨1, "New", some "D", .pending, .medium, none, 7, 0, 5⟩]) ∧
    (⟨1, "New", some "D", .pending, .medium, none, 7, 0, 5⟩ : Task).description = some "D" ∧
    (⟨1, "New", some "D", .pending, .medium, none, 7, 0, 5⟩ : Task).created_at = 0 ∧
    (⟨1, "New", some "D", .pending, .medium, none, 7, 0, 5⟩ : Task).created_at <
      (⟨1, "New", some "D", .pending, .medium, none, 7, 0, 5⟩ : Task).updated_at := by
  have happ := sparse_update_frame 1 ⟨some "New", none, none, none, none⟩
      ⟨7, "a@x", none, none, 0⟩ [⟨1, "T", some "D", .pending, .medium, none, 7, 0, 0⟩] 5
      ⟨1, "T", some "D", .pending, .medium, none, 7, 0, 0⟩
      ⟨1, "New", some "D", .pending, .medium, none, 7, 0, 5⟩
      [⟨1, "New", some "D", .pending, .medium, none, 7, 0, 5⟩] rfl (Or.inl rfl)
  exact ⟨rfl, happ.2.1 rfl, happ.2.2.2.2.2.1, happ.2.2.2.2.2.2.2.2 (by decide)⟩

/-- C9: a successful delete removes the row: afterwards the id resolves to
nothing, a second delete of the same id by the same identity yields the
404 (not success), and a get of that id also yields the 404. -/
theorem delete_then_absent
    (task_id : Nat) (cu : UserResponse) (store store' : List Task)
    (h : delete_task task_id cu store = .ok store') :
    session_get store' task_id = none ∧
    delete_task task_id cu store' = .error (taskNotFound task_id) ∧
    get_task task_id cu store' = .error (taskNotFound task_id) := by
  have hst : store' = store.filter (fun x => x.id != task_id) := by
    unfold delete_task at h
    cases hf : session_get store task_id with
    | none => rw [hf] at h; exact Except.noConfusion h
    | some t =>
      rw [hf] at h
      by_cases ho : t.user_id = cu.id
      · simp [ho] at h
        exact h.symm
      · simp [ho] at h
  have habs : session_get store' task_id = none := by
    rw [hst]
    unfold session_get
    rw [List.find?_eq_none]
    intro x hx
    have hmem := (List.mem_filter.mp hx).2
    simp at hmem ⊢
    exact hmem
  refine ⟨habs, ?_, ?_⟩
  · simp [delete_task, habs]
  · simp [get_task, habs]

/-- Closed instance of `delete_then_absent`: deleting the only task leaves
the empty store, where the second delete and the get both answer 404. -/
theorem delete_then_absent_witness :
    session_get ([] : List Task) 1 = none ∧
    delete_task 1 ⟨7, "a@x", none, none, 0⟩ ([] : List Task) = .error (taskNotFound 1) ∧
    get_task 1 ⟨7, "a@x", none, none, 0⟩ ([] : List Task) = .error (taskNotFound 1) :=
  delete_then_absent 1 ⟨7, "a@x", none, none, 0⟩
    [⟨1, "T", none, .pending, .medium, none, 7, 0, 0⟩] [] rfl

/-- C6: every successful create stamps the new task with the authenticated
identity's id as owner (the payload type has no owner field to take it
from), sets `created_at = updated_at = now`, appends exactly that row, and
the boundary defaults `status` to `pending` and `priority` to `medium`
when the raw payload omits them. -/
theorem create_sets_owner_and_defaults
    (task : TaskCreate) (cu : UserResponse) (store : List Task) (now : Nat) :
    (create_task task cu store now).1.user_id = cu.id ∧
    (create_task task cu store now).1.created_at = now ∧
    (create_task task cu store now).1.updated_at = now ∧
    (create_task task cu store now).2 = store ++ [(create_task task cu store now).1] ∧
    (∀ r : RawTaskCreate, r.status = none →
      ∀ tc, validateTaskCreate r = some tc → tc.status = TaskStatus.pending) ∧
    (∀ r : RawTaskCreate, r.priority = none →
      ∀ tc, validateTaskCreate r = some tc → tc.priority = TaskPriority.medium) := by
  refine ⟨rfl, rfl, rfl, rfl, ?_, ?_⟩
  · intro r hr tc h
    unfold validateTaskCreate at h
    rw [hr] at h
    split at h
    · exact Option.noConfusion h
    · split at h
      · exact Option.noConfusion h
      · split at h
        · next st pr hst hpr =>
          simp only [Option.some.injEq] at h hst
          subst h
          simp [← hst]
        · exact Option.noConfusion h
  · intro r hr tc h
    unfold validateTaskCreate at h
    rw [hr] at h
    split at h
    · exact Option.noConfusion h
    · split at h
      · exact Option.noConfusion h
      · split at h
        · next st pr hst hpr =>
          simp only [Option.some.injEq] at h hpr
          subst h
          simp [← hpr]
        · exact Option.noConfusion h

/-- Closed instance of `create_sets_owner_and_defaults`: a concrete create
for user 7 owns the row, stamps both timestamps with `now = 4`, and a raw
payload omitting status/priority validates to `pending`/`medium`. -/
theorem create_sets_owner_and_defaults_witness :
    (create_task ⟨"T", none, .pending, .medium, none⟩ ⟨7, "a@x", none, none, 0⟩ [] 4).1.user_id = 7 ∧
    (create_task ⟨"T", none, .pending, .medium, none⟩ ⟨7, "a@x", none, none, 0⟩ [] 4).1.created_at = 4 ∧
    (⟨"T", none, .pending, .medium, none⟩ : TaskCreate).status = TaskStatus.pending :=
  ⟨(create_sets_owner_and_defaults ⟨"T", none, .pending, .medium, none⟩
      ⟨7, "a@x", none, none, 0⟩ [] 4).1,
    (create_sets_owner_and_defaults ⟨"T", none, .pending, .medium, none⟩
      ⟨7, "a@x", none, none, 0⟩ [] 4).2.1,
    (create_sets_owner_and_defaults ⟨"T", none, .pending, .medium, none⟩
      ⟨7, "a@x", none, none, 0⟩ [] 4).2.2.2.2.1
      ⟨"T", none, none, none, none⟩ rfl ⟨"T", none, .pending, .medium, none⟩ rfl⟩

/-- C7: the list endpoint returns exactly the caller's tasks — every
returned task is owned by the caller, a task with another owner is never
in the result — as the skip/limit window of the owner-filtered store in
native order, with at most `limit` elements. -/
theorem list_returns_only_owned_window
    (cu : UserResponse) (skip limit : Nat) (store : List Task) :
    (∀ t, t ∈ get_tasks cu skip limit store → t.user_id = cu.id) ∧
    (∀ t, t ∈ store → t.user_id ≠ cu.id → t ∉ get_tasks cu skip limit store) ∧
    get_tasks cu skip limit store =
      ((store.filter (fun t => t.user_id == cu.id)).drop skip).take limit ∧
    (get_tasks cu skip limit store).length ≤ limit := by
  have hown : ∀ t, t ∈ get_tasks cu skip limit store → t.user_id = cu.id := by
    intro t ht
    have h1 : t ∈ (store.filter (fun t => t.user_id == cu.id)).drop skip :=
      List.mem_of_mem_take ht
    have h2 : t ∈ store.filter (fun t => t.user_id == cu.id) :=
      List.mem_of_mem_drop h1
    have h3 := (List.mem_filter.mp h2).2
    simpa using h3
  refine ⟨hown, fun t _ hne hmem => hne (hown t hmem), rfl, ?_⟩
  exact List.length_take_le limit
    ((store.filter (fun t => t.user_id == cu.id)).drop skip)

/-- Closed instance of `list_returns_only_owned_window`: with one task of
user 7 and one of user 8 in the store, user 7's list contains only their
task, and user 8's task is not in it. -/
theorem list_returns_only_owned_window_witness :
    (⟨1, "T", none, .pending, .medium, none, 7, 0, 0⟩ : Task).user_id = 7 ∧
    (⟨2, "S", none, .pending, .medium, none, 8, 0, 0⟩ : Task) ∉
      get_tasks ⟨7, "a@x", none, none, 0⟩ 0 100
        [⟨1, "T", none, .pending, .medium, none, 7, 0, 0⟩,
         ⟨2, "S", none, .pending, .medium, none, 8, 0, 0⟩] :=
  ⟨(list_returns_only_owned_window ⟨7, "a@x", none, none, 0⟩ 0 100
      [⟨1, "T", none, .pending, .medium, none, 7, 0, 0⟩,
       ⟨2, "S", none, .pending, .medium, none, 8, 0, 0⟩]).1
      ⟨1, "T", none, .pending, .medium, none, 7, 0, 0⟩ (by decide),
    (list_returns_only_owned_window ⟨7, "a@x", none, none, 0⟩ 0 100
      [⟨1, "T", none, .pending, .medium, none, 7, 0, 0⟩,
       ⟨2, "S", none, .pending, .medium, none, 8, 0, 0⟩]).2.1
      ⟨2, "S", none, .pending, .medium, none, 8, 0, 0⟩ (by decide) (by decide)⟩

/-- Lemma: `parse_status` accepts exactly the three enum strings. -/
theorem parse_status_isSome_iff (s : String) :
    (parse_status s).isSome ↔
      (s = "pending" ∨ s = "in_progress" ∨ s = "completed") := by
  unfold parse_status
  by_cases h1 : s = "pending" <;> by_cases h2 : s = "in_progress" <;>
    by_cases h3 : s = "completed" <;> simp [h1, h2, h3]

/-- Lemma: `parse_priority` accepts exactly the three enum strings. -/
theorem parse_priority_isSome_iff (s : String) :
    (parse_priority s).isSome ↔
      (s = "low" ∨ s = "medium" ∨ s = "high") := by
  unfold parse_priority
  by_cases h1 : s = "low" <;> by_cases h2 : s = "medium" <;>
    by_cases h3 : s = "high" <;> simp [h1, h2, h3]

/-- Lemma: `validateTaskCreate` succeeds exactly when title is 1–255 chars,
description at most 1000 chars, and status/priority (when supplied) are in
their enum sets. -/
theorem validateTaskCreate_isSome_iff (r : RawTaskCreate) :
    (validateTaskCreate r).isSome ↔
      (1 ≤ r.title.length ∧ r.title.length ≤ 255 ∧
       (∀ d, r.description = some d → d.length ≤ 1000) ∧
       (∀ s, r.status = some s → s = "pending" ∨ s = "in_progress" ∨ s = "completed") ∧
       (∀ p, r.priority = some p → p = "low" ∨ p = "medium" ∨ p = "high")) := by
  obtain ⟨title, desc, st, pr, dd⟩ := r
  unfold validateTaskCreate
  have hMatch :
      (match (match st with | none => some TaskStatus.pending | some s => parse_status s),
             (match pr with | none => some TaskPriority.medium | some p => parse_priority p) with
       | some stv, some prv =>
         some { title := title, description := desc, status := stv,
                priority := prv, due_date := dd : TaskCreate }
       | _, _ => none).isSome ↔
      ((∀ s, st = some s → s = "pending" ∨ s = "in_progress" ∨ s = "completed") ∧
       (∀ p, pr = some p → p = "low" ∨ p = "medium" ∨ p = "high")) := by
    cases st with
    | none =>
      cases pr with
      | none => simp
      | some p =>
        cases hpp : parse_priority p <;>
          (have hp := parse_priority_isSome_iff p; rw [hpp] at hp; simp at hp;
           simp [hpp, hp])
    | some s =>
      cases pr with
      | none =>
        cases hps : parse_status s <;>
          (have hs := parse_status_isSome_iff s; rw [hps] at hs; simp at hs;
           simp [hps, hs])
      | some p =>
        cases hps : parse_status s <;> cases hpp : parse_priority p <;>
          (have hs := parse_status_isSome_iff s; rw [hps] at hs; simp at hs;
           have hp := parse_priority_isSome_iff p; rw [hpp] at hp; simp at hp;
           simp [hps, hpp, hs, hp])
  by_cases h1 : title.length < 1
  · have h1n : ¬ 1 ≤ title.length := by omega
    simp [h1, h1n]
  · by_cases h2 : 255 < title.length
    · have h2n : ¬ title.length ≤ 255 := by omega
      simp [h1, h2, h2n]
    · have e1 : 1 ≤ title.length := by omega
      have e2 : title.length ≤ 255 := by omega
      cases desc with
      | none =>
        simp [h1, h2, e1, e2, hMatch]
      | some d =>
        by_cases h3 : 1000 < d.length
        · have h3n : ¬ d.length ≤ 1000 := by omega
          simp [h1, h2, h3, h3n]
        · have e3 : d.length ≤ 1000 := by omega
          simp [h1, h2, h3, e1, e2, e3, hMatch]

/-- Lemma: `validateTaskUpdate` succeeds exactly when every supplied field is in
range: supplied title 1–255 chars, supplied (non-null) description at most
1000 chars, supplied status/priority in their enum sets. -/
theorem validateTaskUpdate_isSome_iff (ru : RawTaskUpdate) :
    (validateTaskUpdate ru).isSome ↔
      ((∀ s, ru.title = some s → 1 ≤ s.length ∧ s.length ≤ 255) ∧
       (∀ d, ru.description = some (some d) → d.length ≤ 1000) ∧
       (∀ s, ru.status = some s → s = "pending" ∨ s = "in_progress" ∨ s = "completed") ∧
       (∀ p, ru.priority = some p → p = "low" ∨ p = "medium" ∨ p = "high")) := by
  obtain ⟨title, desc, st, pr, dd⟩ := ru
  unfold validateTaskUpdate
  have hMatch :
      (match (match st with
              | none => some (none : Option TaskStatus)
              | some s => (parse_status s).map some),
             (match pr with
              | none => some (none : Option TaskPriority)
              | some p => (parse_priority p).map some) with
       | some stv, some prv =>
         some { title := title, description := desc, status := stv,
                priority := prv, due_date := dd : TaskUpdate }
       | _, _ => none).isSome ↔
      ((∀ s, st = some s → s = "pending" ∨ s = "in_progress" ∨ s = "completed") ∧
       (∀ p, pr = some p → p = "low" ∨ p = "medium" ∨ p = "high")) := by
    cases st with
    | none =>
      cases pr with
      | none => simp
      | some p =>
        cases hpp : parse_priority p <;>
          (have hp := parse_priority_isSome_iff p; rw [hpp] at hp; simp at hp;
           simp [hpp, hp])
    | some s =>
      cases pr with
      | none =>
        cases hps : parse_status s <;>
          (have hs := parse_status_isSome_iff s; rw [hps] at hs; simp at hs;
           simp [hps, hs])
      | some p =>
        cases hps : parse_status s <;> cases hpp : parse_priority p <;>
          (have hs := parse_status_isSome_iff s; rw [hps] at hs; simp at hs;
           have hp := parse_priority_isSome_iff p; rw [hpp] at hp; simp at hp;
           simp [hps, hpp, hs, hp])
  cases title with
  | none =>
    cases desc with
    | none =>
      simp only [Bool.false_eq_true, if_false]
      simp [hMatch]
    | some od =>
      cases od with
      | none =>
        simp only [Bool.false_eq_true, if_false]
        simp [hMatch]
      | some d =>
        by_cases h3 : 1000 < d.length
        · have h3n : ¬ d.length ≤ 1000 := by omega
          simp [h3, h3n]
        · have e3 : d.length ≤ 1000 := by omega
          simp [h3, e3, hMatch]
  | some t =>
    by_cases h1 : t.length < 1
    · have h1n : ¬ 1 ≤ t.length := by omega
      simp [h1, h1n]
    · by_cases h2 : 255 < t.length
      · have h2n : ¬ t.length ≤ 255 := by omega
        simp [h1, h2, h2n]
      · have e1 : 1 ≤ t.length := by omega
        have e2 : t.length ≤ 255 := by omega
        cases desc with
        | none =>
          simp [h1, h2, e1, e2, hMatch]
        | some od =>
          cases od with
          | none =>
            simp [h1, h2, e1, e2, hMatch]
          | some d =>
            by_cases h3 : 1000 < d.length
            · have h3n : ¬ d.length ≤ 1000 := by omega
              simp [h1, h2, h3, h3n]
            · have e3 : d.length ≤ 1000 := by omega
              simp [h1, h2, h3, e1, e2, e3, hMatch]

/-- C8: create — and update, for its supplied fields — fails validation
exactly when the input is out of range: title must be 1–255 chars (so an
empty or >255-char title is rejected and a 255-char title accepted),
description at most 1000 chars, and any status or priority string outside
{pending, in_progress, completed} / {low, medium, high} is rejected. -/
theorem validation_accepts_exactly_in_range (r : RawTaskCreate) (ru : RawTaskUpdate) :
    ((validateTaskCreate r).isSome ↔
      (1 ≤ r.title.length ∧ r.title.length ≤ 255 ∧
       (∀ d, r.description = some d → d.length ≤ 1000) ∧
       (∀ s, r.status = some s → s = "pending" ∨ s = "in_progress" ∨ s = "completed") ∧
       (∀ p, r.priority = some p → p = "low" ∨ p = "medium" ∨ p = "high"))) ∧
    ((validateTaskUpdate ru).isSome ↔
      ((∀ s, ru.title = some s → 1 ≤ s.length ∧ s.length ≤ 255) ∧
       (∀ d, ru.description = some (some d) → d.length ≤ 1000) ∧
       (∀ s, ru.status = some s → s = "pending" ∨ s = "in_progress" ∨ s = "completed") ∧
       (∀ p, ru.priority = some p → p = "low" ∨ p = "medium" ∨ p = "high"))) :=
  ⟨validateTaskCreate_isSome_iff r, validateTaskUpdate_isSome_iff ru⟩

set_option maxRecDepth 8000 in
/-- Closed instance of `validation_accepts_exactly_in_range`: a 255-char
title is accepted, a 256-char title and an empty title are rejected, and
an update supplying the status string "bogus" is rejected. -/
theorem validation_accepts_exactly_in_range_witness :
    (validateTaskCreate ⟨String.mk (List.replicate 255 'a'), none, none, none, none⟩).isSome ∧
    ¬ (validateTaskCreate ⟨String.mk (List.replicate 256 'a'), none, none, none, none⟩).isSome ∧
    ¬ (validateTaskCreate ⟨"", none, none, none, none⟩).isSome ∧
    ¬ (validateTaskUpdate ⟨none, none, some "bogus", none, none⟩).isSome := by
  refine ⟨?_, ?_, ?_, ?_⟩
  · refine (validation_accepts_exactly_in_range
        ⟨String.mk (List.replicate 255 'a'), none, none, none, none⟩
        ⟨none, none, none, none, none⟩).1.mpr ⟨?_, ?_, ?_, ?_, ?_⟩
    · decide
    · decide
    · intro d h; exact Option.noConfusion h
    · intro s h; exact Option.noConfusion h
    · intro p h; exact Option.noConfusion h
  · intro hsome
    have h := (validation_accepts_exactly_in_range
        ⟨String.mk (List.replicate 256 'a'), none, none, none, none⟩
        ⟨none, none, none, none, none⟩).1.mp hsome
    exact absurd h.2.1 (by decide)
  · intro hsome
    have h := (validation_accepts_exactly_in_range
        ⟨"", none, none, none, none⟩ ⟨none, none, none, none, none⟩).1.mp hsome
    exact absurd h.1 (by decide)
  · intro hsome
    have h := (validation_accepts_exactly_in_range
        ⟨"", none, none, none, none⟩
        ⟨none, none, some "bogus", none, none⟩).2.mp hsome
    exact absurd (h.2.2.1 "bogus" rfl) (by decide)

end TaskAPI
